import Mathlib

/-
Verification of the transparent remote-object proxy layer of
qcodes_measurements (plot/pyplot.py and plot/local/RemoteProcessWrapper.py).

The development shallowly embeds the data model and the operations of the
proxy layer:

* `RValue` models the values flowing through the layer: Python None, plain
  data, bare transport references (ObjectProxy), remote list/tuple proxies,
  wrapped objects (RPGWrappedBase instances), local tuples/lists produced by
  wrapping, local functions and property objects, and the closures created
  by `wrap_adders` / `wrap_getters` (each closure creation gets a fresh id,
  mirroring Python object identity).
* `RPGWrappedBase.autowrap` embeds the static method of
  plot/local/RemoteProcessWrapper.py lines 142-181; `PyplotBase.autowrap`
  embeds the older variant of plot/pyplot.py lines 156-179.
* The ownership bookkeeping (`_items` / `_parent`, plot/pyplot.py lines
  181-204 and 253-255) is embedded as a small state machine over `OwnWorld`.
* The attribute protocol of `__getattr__` (plot/local/RemoteProcessWrapper.py
  lines 213-272) is embedded as `dunderGetattr` over an explicit object
  context `ObjCtx` and mutable state `ObjState`; `readAttr` adds the
  surrounding Python attribute lookup (class dictionary and instance
  dictionary are consulted by `__getattribute__` before `__getattr__` runs).

Remote transport behaviour (pyqtgraph's ObjectProxy) is external to the
repository; it is modelled at the boundary stated in the specification:
`getAttr` either yields a value (possibly None) or fails with an
attribute-not-found condition, and a proxy's `_typeStr` introspection is
carried as the remote type name together with a flag recording whether the
string has the dotted form accepted by the regular expression in `autowrap`.
-/

set_option autoImplicit false

namespace QCM

/-- Dispatch mode of a remote call: blocking (default) or fire-and-forget
(`callSync='off'` in `_setProxyOptions`). -/
inductive DispatchMode where
  | blocking
  | fireAndForget
deriving DecidableEq

/-- Values handled by the proxy layer. `proxy id tname regexOk callable mode`
is a bare ObjectProxy whose remote runtime type is named `tname`; `regexOk`
records whether its `_typeStr` matches the dotted format required by the
regular expression in `RPGWrappedBase.autowrap`. `rseq` is a proxy to a
remote list or tuple. `wrapped cls inner` is an `RPGWrappedBase` instance of
local subclass `cls` holding `inner` as `_base_inst`. `adderWrapper` /
`getterWrapper` are the closures produced by `wrap_adders` / `wrap_getters`;
their first argument is a fresh identity. -/
inductive RValue where
  | vnone
  | prim (n : Nat)
  | str (s : String)
  | proxy (id : Nat) (tname : String) (regexOk : Bool) (callable : Bool) (mode : DispatchMode)
  | rseq (id : Nat) (isList : Bool) (elems : List RValue)
  | wrapped (cls : String) (inner : RValue)
  | localtuple (xs : List RValue)
  | locallist (xs : List RValue)
  | func (fid : Nat)
  | propObj (pid : Nat)
  | adderWrapper (wid : Nat) (inner : RValue)
  | getterWrapper (wid : Nat) (inner : RValue)

mutual

/-- Boolean equality on `RValue` (Python `==` at the identity level of the
model: two values are equal when they denote the same remote object or the
same local structure). -/
def RValue.beq : RValue → RValue → Bool
  | .vnone, .vnone => true
  | .prim n, .prim n' => n == n'
  | .str s, .str s' => s == s'
  | .proxy i t ok c m, .proxy i' t' ok' c' m' =>
    i == i' && t == t' && ok == ok' && c == c' && decide (m = m')
  | .rseq i b es, .rseq i' b' es' => i == i' && b == b' && RValue.beqList es es'
  | .wrapped c x, .wrapped c' x' => c == c' && RValue.beq x x'
  | .localtuple xs, .localtuple ys => RValue.beqList xs ys
  | .locallist xs, .locallist ys => RValue.beqList xs ys
  | .func f, .func f' => f == f'
  | .propObj p, .propObj p' => p == p'
  | .adderWrapper w x, .adderWrapper w' x' => w == w' && RValue.beq x x'
  | .getterWrapper w x, .getterWrapper w' x' => w == w' && RValue.beq x x'
  | _, _ => false

/-- Pointwise `RValue.beq` on lists. -/
def RValue.beqList : List RValue → List RValue → Bool
  | [], [] => true
  | x :: xs, y :: ys => RValue.beq x y && RValue.beqList xs ys
  | _, _ => false

end

mutual

theorem RValue.beq_iff : ∀ (a b : RValue), (RValue.beq a b = true) ↔ a = b
  | .vnone, b => by cases b <;> simp [RValue.beq]
  | .prim n, b => by cases b <;> simp [RValue.beq]
  | .str s, b => by cases b <;> simp [RValue.beq]
  | .proxy i t ok c m, b => by cases b <;> simp [RValue.beq, and_assoc]
  | .rseq i bb es, b => by
    cases b <;> simp [RValue.beq, RValue.beqList_iff es, and_assoc]
  | .wrapped c x, b => by
    cases b <;> simp [RValue.beq, RValue.beq_iff x]
  | .localtuple xs, b => by
    cases b <;> simp [RValue.beq, RValue.beqList_iff xs]
  | .locallist xs, b => by
    cases b <;> simp [RValue.beq, RValue.beqList_iff xs]
  | .func f, b => by cases b <;> simp [RValue.beq]
  | .propObj p, b => by cases b <;> simp [RValue.beq]
  | .adderWrapper w x, b => by
    cases b <;> simp [RValue.beq, RValue.beq_iff x]
  | .getterWrapper w x, b => by
    cases b <;> simp [RValue.beq, RValue.beq_iff x]

theorem RValue.beqList_iff : ∀ (as bs : List RValue), (RValue.beqList as bs = true) ↔ as = bs
  | [], bs => by cases bs <;> simp [RValue.beqList]
  | x :: xs, bs => by
    cases bs <;> simp [RValue.beqList, RValue.beq_iff x, RValue.beqList_iff xs]

end

instance : DecidableEq RValue := fun a b => decidable_of_iff _ (RValue.beq_iff a b)

/-- `isinstance(inst, ObjectProxy)`: bare proxies, remote sequences and
wrapped objects are ObjectProxies (RPGWrappedBase subclasses ObjectProxy). -/
def RValue.isObjectProxy : RValue → Bool
  | .proxy _ _ _ _ _ => true
  | .rseq _ _ _ => true
  | .wrapped _ _ => true
  | _ => false

/-- `isinstance(inst, RPGWrappedBase)`. -/
def RValue.isWrappedBase : RValue → Bool
  | .wrapped _ _ => true
  | _ => false

/-- `isinstance(v, list)` on a local value. -/
def RValue.isLocalList : RValue → Bool
  | .locallist _ => true
  | _ => false

/-- `remote_callable` (RemoteProcessWrapper.py lines 78-84): local values use
plain `callable`; for proxies the callability of the remote object is asked
of the worker, modelled here by the `callable` field carried by the proxy. -/
def remoteCallable : RValue → Bool
  | .proxy _ _ _ c _ => c
  | .wrapped _ inner => remoteCallable inner
  | .func _ => true
  | .adderWrapper _ _ => true
  | .getterWrapper _ _ => true
  | _ => false

/-- `RPGWrappedBase.wrap` (RemoteProcessWrapper.py lines 122-140): only
ObjectProxies may be wrapped; anything else raises `TypeError`, modelled as
`none`. Wrapping attaches the instance as `_base_inst` of a fresh instance
of the subclass `cls` (the `__wrap__` hook re-initialises the local caches,
which start empty in the state models below). -/
def RPGWrappedBase.wrap (cls : String) (inst : RValue) : Option RValue :=
  if inst.isObjectProxy then some (.wrapped cls inst) else none

/-- The result of the regular-expression introspection
`re.match(r"<[a-zA-Z_.]+\.([a-zA-Z_]+) object at 0x[0-9A-Fa-f]+>", inst._typeStr)`
(RemoteProcessWrapper.py line 172): the last dotted component of the remote
type when the `_typeStr` has the dotted form, and `None` otherwise. -/
def RValue.regexType : RValue → Option String
  | .proxy _ t ok _ _ => if ok then some t else none
  | _ => none

mutual

/-- `RPGWrappedBase.autowrap` (RemoteProcessWrapper.py lines 142-181) with the
subclass-type registry `reg` (remote type tag ↦ local subclass) passed
explicitly. Control flow of the source: values that are not ObjectProxies
are returned unchanged (line 181); an `RPGWrappedBase` is returned unchanged
(lines 161-163); a proxy whose remote `__class__.__name__` is `tuple` or
`list` becomes a local tuple of recursively autowrapped elements (lines
166-169); otherwise the type name extracted from `_typeStr` is looked up in
the registry and, when found, the subclass's `wrap` is invoked (lines
172-177); on a parse failure or an unregistered name the bare instance is
returned (line 181). -/
def RPGWrappedBase.autowrap (reg : List (String × String)) : RValue → RValue
  | .wrapped cls inner => .wrapped cls inner
  | .rseq _ _ elems => .localtuple (autowrapList reg elems)
  | .proxy i t ok c m =>
    match (RValue.proxy i t ok c m).regexType with
    | some typestr =>
      match List.lookup typestr reg with
      | some cls =>
        match RPGWrappedBase.wrap cls (.proxy i t ok c m) with
        | some w => w
        | none => .proxy i t ok c m
      | none => .proxy i t ok c m
    | none => .proxy i t ok c m
  | v => v

/-- Elementwise wrapping of a remote sequence:
`tuple(RPGWrappedBase.autowrap(inst[i]) for i in range(len(inst)))`
(RemoteProcessWrapper.py line 169). -/
def autowrapList (reg : List (String × String)) : List RValue → List RValue
  | [] => []
  | x :: xs => RPGWrappedBase.autowrap reg x :: autowrapList reg xs

end

/-- The older `RPGWrappedBase.autowrap` of plot/pyplot.py lines 156-179. Its
type-name parse `inst._typeStr.split()[0].strip('< ').split('.')[-1]` is
total, so the registry is consulted for every bare proxy; there is no
special branch for remote sequences (a remote list's parsed name is `list`,
which is registered to no subclass). -/
def PyplotBase.autowrap (reg : List (String × String)) : RValue → RValue
  | .wrapped cls inner => .wrapped cls inner
  | .proxy i t ok c m =>
    match List.lookup t reg with
    | some cls =>
      match RPGWrappedBase.wrap cls (.proxy i t ok c m) with
      | some w => w
      | none => .proxy i t ok c m
    | none => .proxy i t ok c m
  | .rseq i isL elems =>
    match List.lookup (if isL then ("list") else ("tuple")) reg with
    | some cls =>
      match RPGWrappedBase.wrap cls (.rseq i isL elems) with
      | some w => w
      | none => .rseq i isL elems
    | none => .rseq i isL elems
  | v => v

/-- The subclass-type registry built by walking the `RPGWrappedBase`
subclasses of the plot/local package and reading each `_base` tag
(RemoteProcessWrapper.py lines 146-157): remote type tag ↦ local subclass. -/
def localRegistry : List (String × String) :=
  [("ColorMap", "ColorMap"),
   ("HistogramLUTItem", "HistogramLUTItem"),
   ("ImageItem", "ImageItem"),
   ("ExtendedImageItem", "ExtendedImageItem"),
   ("ImageItemWithHistogram", "ImageItemWithHistogram"),
   ("VoronoiPlot", "VoronoiPlot"),
   ("ColorMesh", "ColorMesh"),
   ("PlotDataItem", "PlotDataItem"),
   ("ExtendedPlotDataItem", "ExtendedPlotDataItem"),
   ("PlotItem", "BasePlotItem"),
   ("ExtendedPlotItem", "PlotItem"),
   ("GraphicsLayoutWidget", "BasePlotWindow"),
   ("ExtendedPlotWindow", "PlotWindow"),
   ("TableWidget", "TableWidget"),
   ("LegendItem", "LegendItem"),
   ("DraggableTextItem", "TextItem"),
   ("AxisItem", "PlotAxis")]

/-- The registry of the older plot/pyplot.py subclasses (`_base` tags of the
classes declared in that file). -/
def pyplotRegistry : List (String × String) :=
  [("GraphicsLayoutWidget", "BasePlotWindow"),
   ("ExtendedPlotWindow", "PlotWindow"),
   ("AxisItem", "PlotAxis"),
   ("PlotItem", "BasePlotItem"),
   ("ExtendedPlotItem", "PlotItem"),
   ("DraggableTextItem", "TextItem"),
   ("HistogramLUTItem", "HistogramLUTItem"),
   ("ColorMap", "ColorMap"),
   ("LegendItem", "LegendItem"),
   ("PlotDataItem", "PlotDataItem"),
   ("ExtendedPlotDataItem", "ExtendedPlotDataItem"),
   ("ImageItem", "ImageItem"),
   ("ExtendedImageItem", "ExtendedImageItem"),
   ("ImageItemWithHistogram", "ImageItemWithHistogram"),
   ("TableWidget", "TableWidget")]

/-- Number of occurrences of `v` in a list (used to state "appears exactly
once in the owned-items sequence"). -/
def countOcc (v : RValue) : List RValue → Nat
  | [] => 0
  | x :: xs => (if x = v then 1 else 0) + countOcc v xs

/-- Python `res in self._items` membership test (comparison by `==`, which at
the identity level of this model is `RValue` equality). -/
def containsVal (l : List RValue) (v : RValue) : Bool :=
  match l with
  | [] => false
  | x :: xs => if x = v then true else containsVal xs v

/-- First-match association lookup for owned-item lists keyed by container
identity. -/
def lookupItems : List (Nat × List RValue) → Nat → Option (List RValue)
  | [], _ => none
  | (k, l) :: rest, p => if k = p then some l else lookupItems rest p

/-- First-match association lookup for parent back-references keyed by the
added value. -/
def lookupParent : List (RValue × Nat) → RValue → Option Nat
  | [], _ => none
  | (k, q) :: rest, v => if k = v then some q else lookupParent rest v

/-- The ownership bookkeeping state of the plot/pyplot.py wrappers: each
container (identified by a `Nat`) has an `_items` list (empty after
`__init__`/`__wrap__`, pyplot.py lines 112 and 130), and each wrapped value
has an optional `_parent` back-reference (`None` after construction, set by
`_notify_added`, pyplot.py lines 253-255). A cons onto either association
list shadows older entries, so the first match is the current value. -/
structure OwnWorld where
  items : List (Nat × List RValue)
  parents : List (RValue × Nat)
deriving DecidableEq

/-- `self._items` of container `p` (`[]` when never touched). -/
def itemsOf (w : OwnWorld) (p : Nat) : List RValue := (lookupItems w.items p).getD []

/-- `_parent` of the wrapped value `v`, as set by `_notify_added`. -/
def parentOf (w : OwnWorld) (v : RValue) : Option Nat := lookupParent w.parents v

/-- The closure `save` produced by `RPGWrappedBase.wrap_adders`
(plot/pyplot.py lines 181-204), together with `_notify_added` (lines
253-255). `callResult` is the value returned by the underlying remote adder
`f(*args, **kwargs)`; `args` are the positional arguments of the call
(keyword arguments never participate). Source control flow: when `f`
returns `None`, the first positional argument is taken as the added item,
and when there is none the closure silently returns `None` (bare `return`,
line 192); the item is then autowrapped (line 192/194 of the respective
file), appended to `self._items` unless already present (lines 194-198),
and, when it is an `RPGWrappedBase`, its `_parent` is set to `self` via
`_notify_added` (lines 199-202, 253-255). -/
def PyplotBase.wrapAddersSave (reg : List (String × String)) (w : OwnWorld) (selfId : Nat)
    (callResult : RValue) (args : List RValue) : Option RValue × OwnWorld :=
  let res? : Option RValue :=
    if callResult = .vnone then args.head? else some callResult
  match res? with
  | none => (none, w)
  | some r0 =>
    let res := PyplotBase.autowrap reg r0
    let w1 :=
      if res.isObjectProxy then
        if containsVal (itemsOf w selfId) res then w
        else { w with items := (selfId, itemsOf w selfId ++ [res]) :: w.items }
      else w
    let w2 :=
      if res.isWrappedBase then { w1 with parents := (res, selfId) :: w1.parents } else w1
    (some res, w2)

/-- A wrapped object is in particular an ObjectProxy. -/
theorem isWrappedBase_isObjectProxy (v : RValue) (h : v.isWrappedBase = true) :
    v.isObjectProxy = true := by
  cases v <;> simp_all [RValue.isWrappedBase, RValue.isObjectProxy]

/-- Occurrence counting distributes over append. -/
theorem countOcc_append (v : RValue) (l1 l2 : List RValue) :
    countOcc v (l1 ++ l2) = countOcc v l1 + countOcc v l2 := by
  induction l1 with
  | nil => simp [countOcc]
  | cons x xs ih => simp [countOcc, ih]; omega

/-- Membership by `containsVal` is positivity of the occurrence count. -/
theorem containsVal_iff_countOcc (l : List RValue) (v : RValue) :
    containsVal l v = true ↔ 0 < countOcc v l := by
  induction l with
  | nil => simp [containsVal, countOcc]
  | cons x xs ih =>
    by_cases hx : x = v <;> simp [containsVal, countOcc, hx, ih]

/-- Claim C2: `autowrap` is idempotent — for every registry and every input
value `v`, `autowrap (autowrap v) = autowrap v`; in particular a value that
is already a WrappedObject is returned unchanged, never double-wrapped
(RemoteProcessWrapper.py lines 161-163). -/
theorem C2_autowrap_idempotent (reg : List (String × String)) (v : RValue) :
    RPGWrappedBase.autowrap reg (RPGWrappedBase.autowrap reg v) =
      RPGWrappedBase.autowrap reg v ∧
    (∀ cls inner, RPGWrappedBase.autowrap reg (.wrapped cls inner) = .wrapped cls inner) := by
  constructor
  · cases v <;> simp [RPGWrappedBase.autowrap, RValue.regexType]
    case proxy i t ok c m =>
      cases ok
      · simp [RPGWrappedBase.autowrap, RValue.regexType]
      · cases hl : List.lookup t reg <;>
          simp [RPGWrappedBase.autowrap, RValue.regexType, hl, RPGWrappedBase.wrap,
            RValue.isObjectProxy]
  · intro cls inner
    simp [RPGWrappedBase.autowrap]

/-- Claim C3: for every registry entry registering remote type name `t` to
local subclass `cls`, autowrapping a bare reference whose introspected type
name is `t` builds the wrapper through `cls.wrap` and yields an instance of
`cls`; a reference whose type name is registered to no subclass comes back
unchanged (RemoteProcessWrapper.py lines 122-140 and 159-181). -/
theorem C3_type_resolution (reg : List (String × String)) (i : Nat) (t : String)
    (c : Bool) (m : DispatchMode) (cls : String) :
    (List.lookup t reg = some cls →
      RPGWrappedBase.wrap cls (.proxy i t true c m) =
        some (.wrapped cls (.proxy i t true c m)) ∧
      RPGWrappedBase.autowrap reg (.proxy i t true c m) =
        .wrapped cls (.proxy i t true c m)) ∧
    (List.lookup t reg = none →
      RPGWrappedBase.autowrap reg (.proxy i t true c m) = .proxy i t true c m) := by
  constructor
  · intro hl
    refine ⟨by simp [RPGWrappedBase.wrap, RValue.isObjectProxy], ?_⟩
    simp [RPGWrappedBase.autowrap, RValue.regexType, hl, RPGWrappedBase.wrap,
      RValue.isObjectProxy]
  · intro hl
    simp [RPGWrappedBase.autowrap, RValue.regexType, hl]

/-- Witness for C3: in the registry of the plot/local package, the tag
`ExtendedPlotWindow` resolves to the `PlotWindow` wrapper, while the
unregistered pyqtgraph type `GraphicsObject` passes through unchanged. -/
theorem C3_type_resolution_witness :
    (RPGWrappedBase.autowrap localRegistry
        (.proxy 7 ("ExtendedPlotWindow") true false .blocking) =
      .wrapped ("PlotWindow") (.proxy 7 ("ExtendedPlotWindow") true false .blocking)) ∧
    (RPGWrappedBase.autowrap localRegistry
        (.proxy 8 ("GraphicsObject") true false .blocking) =
      .proxy 8 ("GraphicsObject") true false .blocking) :=
  ⟨((C3_type_resolution localRegistry 7 ("ExtendedPlotWindow") false .blocking
      ("PlotWindow")).1 (by decide)).2,
   (C3_type_resolution localRegistry 8 ("GraphicsObject") false .blocking
      ("PlotWindow")).2 (by decide)⟩

/-- Helper: the elementwise wrapping of a remote sequence is `List.map` of
`autowrap`. -/
theorem autowrapList_eq_map (reg : List (String × String)) :
    ∀ es : List RValue, autowrapList reg es = es.map (RPGWrappedBase.autowrap reg)
  | [] => rfl
  | x :: xs => by simp [autowrapList, autowrapList_eq_map reg xs]

/-- Claim C7 counterexample: a remote *list* of references is not returned as
a list — `autowrap` builds a `tuple(...)` of the recursively wrapped
elements regardless of the input sequence type (RemoteProcessWrapper.py
line 169), so the sequence type is not preserved. -/
theorem C7_sequence_type_counterexample :
    RPGWrappedBase.autowrap localRegistry (.rseq 0 true [.prim 5]) =
      .localtuple [.prim 5] ∧
    (RValue.localtuple [.prim 5]).isLocalList = false ∧
    RValue.localtuple [.prim 5] ≠ RValue.locallist [.prim 5] := by
  refine ⟨by decide, by decide, by decide⟩

/-- Claim C7 as amended: for every remote sequence (remote list or tuple)
passed to `autowrap`, each element is recursively autowrapped, and the
result is always a local tuple, whatever the input sequence type was. -/
theorem C7_remote_sequence_amended (reg : List (String × String)) (i : Nat)
    (isL : Bool) (elems : List RValue) :
    RPGWrappedBase.autowrap reg (.rseq i isL elems) =
      .localtuple (elems.map (RPGWrappedBase.autowrap reg)) := by
  simp [RPGWrappedBase.autowrap, autowrapList_eq_map]

/-- Claim C1: after a successful adder call on container `p` that yields a
WrappedObject `c`, `c` appears exactly once in `p`'s `_items` and `c`'s
`_parent` equals `p` (pyplot.py lines 181-204 and 253-255). The hypothesis
`countOcc c (itemsOf w p) ≤ 1` is the reachable-state invariant of the adder
machinery itself: `_items` starts empty and, as this theorem shows, adder
calls never push the multiplicity of an item past one (the membership guard
on line 197). -/
theorem C1_adder_ownership (reg : List (String × String)) (w : OwnWorld) (p : Nat)
    (callRes : RValue) (args : List RValue) (c : RValue) (w' : OwnWorld)
    (hinv : countOcc c (itemsOf w p) ≤ 1)
    (hrun : PyplotBase.wrapAddersSave reg w p callRes args = (some c, w'))
    (hc : c.isWrappedBase = true) :
    countOcc c (itemsOf w' p) = 1 ∧ parentOf w' c = some p := by
  have hco : c.isObjectProxy = true := isWrappedBase_isObjectProxy c hc
  simp only [PyplotBase.wrapAddersSave] at hrun
  split at hrun
  · exact absurd (congrArg Prod.fst hrun) (by simp)
  · next r0 hr0 =>
    rw [Prod.mk.injEq, Option.some.injEq] at hrun
    obtain ⟨hceq, hweq⟩ := hrun
    subst hceq
    subst hweq
    rw [hco, if_pos rfl, hc, if_pos rfl]
    refine ⟨?_, by simp [parentOf, lookupParent]⟩
    by_cases hmem : containsVal (itemsOf w p) (PyplotBase.autowrap reg r0) = true
    · rw [if_pos hmem]
      have hpos := (containsVal_iff_countOcc _ _).mp hmem
      simp only [itemsOf] at hinv hpos ⊢
      omega
    · rw [if_neg hmem]
      have h0 : countOcc (PyplotBase.autowrap reg r0) (itemsOf w p) = 0 := by
        rcases Nat.eq_zero_or_pos (countOcc (PyplotBase.autowrap reg r0) (itemsOf w p)) with h | h
        · exact h
        · exact absurd ((containsVal_iff_countOcc _ _).mpr h) hmem
      simp only [itemsOf] at h0 ⊢
      simp [lookupItems, countOcc_append, countOcc, h0]

/-- Witness for C1: adding a fresh `ExtendedPlotDataItem` reference to the
empty container `0` records it exactly once with parent `0`. -/
theorem C1_adder_ownership_witness :
    countOcc
      (.wrapped ("ExtendedPlotDataItem")
        (.proxy 3 ("ExtendedPlotDataItem") true false .blocking))
      (itemsOf
        (PyplotBase.wrapAddersSave pyplotRegistry ⟨[], []⟩ 0
          (.proxy 3 ("ExtendedPlotDataItem") true false .blocking) []).2 0) = 1 ∧
    parentOf
      (PyplotBase.wrapAddersSave pyplotRegistry ⟨[], []⟩ 0
        (.proxy 3 ("ExtendedPlotDataItem") true false .blocking) []).2
      (.wrapped ("ExtendedPlotDataItem")
        (.proxy 3 ("ExtendedPlotDataItem") true false .blocking)) = some 0 :=
  C1_adder_ownership pyplotRegistry ⟨[], []⟩ 0
    (.proxy 3 ("ExtendedPlotDataItem") true false .blocking) []
    (.wrapped ("ExtendedPlotDataItem")
      (.proxy 3 ("ExtendedPlotDataItem") true false .blocking))
    (PyplotBase.wrapAddersSave pyplotRegistry ⟨[], []⟩ 0
      (.proxy 3 ("ExtendedPlotDataItem") true false .blocking) []).2
    (by decide) (by decide) (by decide)

/-- Claim C4 counterexample: adding the same reference first to container `1`
and then to container `2` leaves it recorded in the `_items` of both — the
parent back-reference moves to `2`, but the object is never removed from
`1`'s list, so it does not hold that a wrapped object appears in at most one
owner's `_items` (wrap_adders appends without removing, pyplot.py lines
194-198; design note §9 of the specification records the same behaviour). -/
theorem C4_multiple_owners_counterexample :
    containsVal
      (itemsOf
        (PyplotBase.wrapAddersSave pyplotRegistry
          (PyplotBase.wrapAddersSave pyplotRegistry ⟨[], []⟩ 1
            (.proxy 3 ("ExtendedPlotDataItem") true false .blocking) []).2 2
          (.proxy 3 ("ExtendedPlotDataItem") true false .blocking) []).2 1)
      (.wrapped ("ExtendedPlotDataItem")
        (.proxy 3 ("ExtendedPlotDataItem") true false .blocking)) = true ∧
    containsVal
      (itemsOf
        (PyplotBase.wrapAddersSave pyplotRegistry
          (PyplotBase.wrapAddersSave pyplotRegistry ⟨[], []⟩ 1
            (.proxy 3 ("ExtendedPlotDataItem") true false .blocking) []).2 2
          (.proxy 3 ("ExtendedPlotDataItem") true false .blocking) []).2 2)
      (.wrapped ("ExtendedPlotDataItem")
        (.proxy 3 ("ExtendedPlotDataItem") true false .blocking)) = true ∧
    parentOf
      (PyplotBase.wrapAddersSave pyplotRegistry
        (PyplotBase.wrapAddersSave pyplotRegistry ⟨[], []⟩ 1
          (.proxy 3 ("ExtendedPlotDataItem") true false .blocking) []).2 2
        (.proxy 3 ("ExtendedPlotDataItem") true false .blocking) []).2
      (.wrapped ("ExtendedPlotDataItem")
        (.proxy 3 ("ExtendedPlotDataItem") true false .blocking)) = some 2 := by
  refine ⟨by decide, by decide, by decide⟩

/-- Claim C4 as amended: a successful adder call on `p` sets the added
object's parent back-reference to `p` (the last adder wins), but leaves the
`_items` of every other owner untouched — in particular an object already
owned elsewhere stays in the previous owner's list and may therefore appear
in several owners' lists at once. -/
theorem C4_last_adder_wins_amended (reg : List (String × String)) (w : OwnWorld)
    (p : Nat) (callRes : RValue) (args : List RValue) (c : RValue) (w' : OwnWorld)
    (hrun : PyplotBase.wrapAddersSave reg w p callRes args = (some c, w')) :
    (c.isWrappedBase = true → parentOf w' c = some p) ∧
    (∀ q, q ≠ p → itemsOf w' q = itemsOf w q) := by
  simp only [PyplotBase.wrapAddersSave] at hrun
  split at hrun
  · exact absurd (congrArg Prod.fst hrun) (by simp)
  · next r0 hr0 =>
    rw [Prod.mk.injEq, Option.some.injEq] at hrun
    obtain ⟨hceq, hweq⟩ := hrun
    subst hceq
    subst hweq
    constructor
    · intro hc
      rw [hc, if_pos rfl]
      simp [parentOf, lookupParent]
    · intro q hq
      by_cases hwb : (PyplotBase.autowrap reg r0).isWrappedBase = true
      · rw [if_pos hwb]
        by_cases hpx : (PyplotBase.autowrap reg r0).isObjectProxy = true
        · rw [if_pos hpx]
          by_cases hmem : containsVal (itemsOf w p) (PyplotBase.autowrap reg r0) = true
          · rw [if_pos hmem]
            simp [itemsOf]
          · rw [if_neg hmem]
            simp [itemsOf, lookupItems, Ne.symm hq]
        · rw [if_neg hpx]
          simp [itemsOf]
      · rw [if_neg hwb]
        by_cases hpx : (PyplotBase.autowrap reg r0).isObjectProxy = true
        · rw [if_pos hpx]
          by_cases hmem : containsVal (itemsOf w p) (PyplotBase.autowrap reg r0) = true
          · rw [if_pos hmem]
          · rw [if_neg hmem]
            simp [itemsOf, lookupItems, Ne.symm hq]
        · rw [if_neg hpx]

/-- Witness for the amended C4: after the two adds of the counterexample
scenario, the second call (owner `2`) moved the parent to `2` and left owner
`1`'s items untouched. -/
theorem C4_last_adder_wins_amended_witness :
    (parentOf
      (PyplotBase.wrapAddersSave pyplotRegistry
        (PyplotBase.wrapAddersSave pyplotRegistry ⟨[], []⟩ 1
          (.proxy 3 ("ExtendedPlotDataItem") true false .blocking) []).2 2
        (.proxy 3 ("ExtendedPlotDataItem") true false .blocking) []).2
      (.wrapped ("ExtendedPlotDataItem")
        (.proxy 3 ("ExtendedPlotDataItem") true false .blocking)) = some 2) ∧
    itemsOf
      (PyplotBase.wrapAddersSave pyplotRegistry
        (PyplotBase.wrapAddersSave pyplotRegistry ⟨[], []⟩ 1
          (.proxy 3 ("ExtendedPlotDataItem") true false .blocking) []).2 2
        (.proxy 3 ("ExtendedPlotDataItem") true false .blocking) []).2 1 =
    itemsOf
      (PyplotBase.wrapAddersSave pyplotRegistry ⟨[], []⟩ 1
        (.proxy 3 ("ExtendedPlotDataItem") true false .blocking) []).2 1 :=
  ⟨(C4_last_adder_wins_amended pyplotRegistry
      (PyplotBase.wrapAddersSave pyplotRegistry ⟨[], []⟩ 1
        (.proxy 3 ("ExtendedPlotDataItem") true false .blocking) []).2 2
      (.proxy 3 ("ExtendedPlotDataItem") true false .blocking) []
      (.wrapped ("ExtendedPlotDataItem")
        (.proxy 3 ("ExtendedPlotDataItem") true false .blocking)) _ (by decide)).1
      (by decide),
   (C4_last_adder_wins_amended pyplotRegistry
      (PyplotBase.wrapAddersSave pyplotRegistry ⟨[], []⟩ 1
        (.proxy 3 ("ExtendedPlotDataItem") true false .blocking) []).2 2
      (.proxy 3 ("ExtendedPlotDataItem") true false .blocking) []
      (.wrapped ("ExtendedPlotDataItem")
        (.proxy 3 ("ExtendedPlotDataItem") true false .blocking)) _ (by decide)).2 1
      (by decide)⟩

/-- Claim C8 counterexample: an adder whose remote method returns `None`,
called with no positional argument, silently returns `None` and leaves the
ownership state untouched — the bare `return` on line 192 of pyplot.py (and
line 192 of RemoteProcessWrapper.py) raises nothing, so no error is
surfaced to the caller, contradicting the claim's error requirement. -/
theorem C8_no_args_counterexample :
    PyplotBase.wrapAddersSave pyplotRegistry ⟨[], []⟩ 0 .vnone [] =
      (none, (⟨[], []⟩ : OwnWorld)) := by
  decide

/-- Helper: the behaviour of the `save` closure once the added item has been
resolved to `r0` (either the call's return value, or the first positional
argument when the call returned `None`). -/
theorem wrapAddersSave_resolved (reg : List (String × String)) (w : OwnWorld)
    (p : Nat) (callRes : RValue) (args : List RValue) (r0 : RValue)
    (h : (if callRes = RValue.vnone then args.head? else some callRes) = some r0) :
    PyplotBase.wrapAddersSave reg w p callRes args =
      (some (PyplotBase.autowrap reg r0),
        if (PyplotBase.autowrap reg r0).isWrappedBase then
          { (if (PyplotBase.autowrap reg r0).isObjectProxy then
              (if containsVal (itemsOf w p) (PyplotBase.autowrap reg r0) then w
               else { w with
                 items := (p, itemsOf w p ++ [PyplotBase.autowrap reg r0]) :: w.items })
             else w) with
            parents := (PyplotBase.autowrap reg r0, p) ::
              (if (PyplotBase.autowrap reg r0).isObjectProxy then
                (if containsVal (itemsOf w p) (PyplotBase.autowrap reg r0) then w
                 else { w with
                   items := (p, itemsOf w p ++ [PyplotBase.autowrap reg r0]) :: w.items })
               else w).parents }
        else
          (if (PyplotBase.autowrap reg r0).isObjectProxy then
            (if containsVal (itemsOf w p) (PyplotBase.autowrap reg r0) then w
             else { w with
               items := (p, itemsOf w p ++ [PyplotBase.autowrap reg r0]) :: w.items })
           else w)) := by
  simp only [PyplotBase.wrapAddersSave]
  rw [h]

/-- Claim C8 as amended: when the underlying adder returns `None`, the first
positional argument (after autowrapping) is recorded as the owned item and
returned; when there is no positional argument either, the closure returns
`None` and silently skips the ownership update, raising no error. -/
theorem C8_none_result_amended (reg : List (String × String)) (w : OwnWorld)
    (p : Nat) (a : RValue) (rest : List RValue) :
    (PyplotBase.wrapAddersSave reg w p .vnone (a :: rest)).1 =
      some (PyplotBase.autowrap reg a) ∧
    ((PyplotBase.autowrap reg a).isObjectProxy = true →
      containsVal
        (itemsOf (PyplotBase.wrapAddersSave reg w p .vnone (a :: rest)).2 p)
        (PyplotBase.autowrap reg a) = true) ∧
    PyplotBase.wrapAddersSave reg w p .vnone [] = (none, w) := by
  have heq := wrapAddersSave_resolved reg w p .vnone (a :: rest) a (by simp)
  refine ⟨by rw [heq], ?_, by rfl⟩
  intro hpx
  rw [heq]
  by_cases hmem : containsVal (itemsOf w p) (PyplotBase.autowrap reg a) = true
  · by_cases hwb : (PyplotBase.autowrap reg a).isWrappedBase = true
    · simp only [hwb, if_pos rfl, hpx, hmem]
      simpa [itemsOf] using hmem
    · simp only [if_neg hwb, hpx, if_pos rfl, hmem, if_pos rfl]
      exact hmem
  · have hmem2 : containsVal (itemsOf w p ++ [PyplotBase.autowrap reg a])
        (PyplotBase.autowrap reg a) = true := by
      rw [containsVal_iff_countOcc, countOcc_append]
      simp [countOcc]
    by_cases hwb : (PyplotBase.autowrap reg a).isWrappedBase = true
    · simp only [hwb, if_pos rfl, hpx, if_neg hmem]
      simpa [itemsOf, lookupItems] using hmem2
    · simp only [if_neg hwb, hpx, if_pos rfl, if_neg hmem]
      simpa [itemsOf, lookupItems] using hmem2

/-- Witness for the amended C8: a mutate-in-place adder called with one
positional reference records the autowrapped reference as the owned item. -/
theorem C8_none_result_amended_witness :
    containsVal
      (itemsOf
        (PyplotBase.wrapAddersSave pyplotRegistry ⟨[], []⟩ 0 .vnone
          [.proxy 4 ("DraggableTextItem") true false .blocking]).2 0)
      (PyplotBase.autowrap pyplotRegistry
        (.proxy 4 ("DraggableTextItem") true false .blocking)) = true :=
  (C8_none_result_amended pyplotRegistry ⟨[], []⟩ 0
    (.proxy 4 ("DraggableTextItem") true false .blocking) []).2.1 (by decide)

/-- Structural character-list prefix test (the meaning of Python
`str.startswith` on the underlying character sequences). -/
def charsPrefixOf : List Char → List Char → Bool
  | [], _ => true
  | _ :: _, [] => false
  | c :: cs, d :: ds => if c = d then charsPrefixOf cs ds else false

/-- Python `name.startswith(pre)`. -/
def pyStartsWith (name pre : String) : Bool :=
  charsPrefixOf pre.data name.data

/-- Whether an underscore occurs before any newline: the tail condition of
the regular expressions `_repr_.*_` and `_ipython_.*_` (Python's `.` does
not cross a newline). -/
def underscoreBeforeNewline : List Char → Bool
  | [] => false
  | ch :: rest =>
    if ch = '\n' then false
    else if ch = '_' then true
    else underscoreBeforeNewline rest

/-- The iPython interception at the top of `__getattr__`
(RemoteProcessWrapper.py lines 215-218): `re.match("_repr_.*_", name)` or
`re.match("_ipython_.*_", name)`. A name matches when it starts with the
literal prefix and a further underscore occurs later on the same line. -/
def isIPythonSpecial (name : String) : Bool :=
  (charsPrefixOf ("_repr_").data name.data &&
    underscoreBeforeNewline (name.data.drop 6)) ||
  (charsPrefixOf ("_ipython_").data name.data &&
    underscoreBeforeNewline (name.data.drop 9))

/-- The body of a local property getter. The repository's getters are of two
shapes: read a reserved local field (e.g. `ColorMap.name` is
`return self._name`, `HistogramLUTItem.colormap` reads `self._cmap`), or
delegate to the remote object by calling a remote method or reading a
remote attribute of a *different* name (e.g. `BasePlotWindow.win_title` is
`return self.windowTitle()`, `BasePlotWindow.size` calls
`self._base_inst.size()`, `PlotDataItem.xData` reads
`self._base_inst.xData`). A delegating getter issues its own transport
traffic when it runs; the resolution of the delegated name and the call are
recorded as one transport operation here. -/
inductive GetterBody where
  | localField (v : RValue)
  | remoteMethodCall (m : String)
deriving DecidableEq

/-- An entry of the local class hierarchy's dictionaries (the MRO scan of
RemoteProcessWrapper.py lines 226-235): a plain method (a function object),
a property (carrying the code of its getter), or a plain class data
attribute. -/
inductive LocalDef where
  | method (fid : Nat)
  | propdef (pid : Nat) (body : GetterBody)
  | dataval (v : RValue)
deriving DecidableEq

/-- `v.__get__(None, self)` when the class-dictionary entry has a `__get__`,
and the raw value otherwise (RemoteProcessWrapper.py lines 228-234): a
function's `__get__(None, _)` is the function itself, a property accessed
with `obj=None` yields the property object, and plain data has no
`__get__`. -/
def LocalDef.descGetClass : LocalDef → RValue
  | .method fid => .func fid
  | .propdef pid _ => .propObj pid
  | .dataval v => v

/-- The errors `__getattr__` can raise: the fixed-message
`AttributeError("Ignoring iPython special methods")`, or an
attribute-not-found error carrying a type name and the attribute name (the
local `AttributeError(f"'{cls}' object has no attribute '{name}'")` of line
253, and the attribute-not-found condition propagated from the transport
when the remote object lacks the attribute). -/
inductive AttrError where
  | ipythonIgnored
  | noAttribute (typeName : String) (attr : String)
deriving DecidableEq

instance {ε α : Type} [DecidableEq ε] [DecidableEq α] : DecidableEq (Except ε α) :=
  fun a b =>
    match a, b with
    | .ok x, .ok y =>
      if h : x = y then isTrue (by rw [h]) else isFalse (fun hc => h (Except.ok.inj hc))
    | .error e, .error f =>
      if h : e = f then isTrue (by rw [h]) else isFalse (fun hc => h (Except.error.inj hc))
    | .ok _, .error _ => isFalse (fun hc => Except.noConfusion hc)
    | .error _, .ok _ => isFalse (fun hc => Except.noConfusion hc)

/-- The per-object context of the attribute protocol: the wrapper class name
(`self.__class__.__name__`), the remote object's runtime type name, the
subclass registry used by `autowrap`, the flattened MRO class dictionaries
(first match wins, as in the `for cls in self.__class__.__mro__` scan), the
local instance dictionary (`self._base_inst.__dict__`, merged with the
wrapper's own instance fields by `wrap`), the remote object's attribute
table as exposed by the transport's `getAttr` (a present attribute may hold
the value `None`), the results the remote object currently returns for the
method calls issued by delegating property getters (part of the remote
object's state, like `remoteAttrs`), and `self._remote_function_options`. -/
structure ObjCtx where
  className : String
  remoteTypeName : String
  registry : List (String × String)
  localDefs : List (String × LocalDef)
  instDict : List (String × RValue)
  remoteAttrs : List (String × RValue)
  remoteCalls : List (String × RValue)
  options : List (String × DispatchMode)

/-- The mutable per-object state: `self._remote_functions` (the call cache),
a counter supplying the identity of each freshly created closure, and the
number of transport operations issued so far (every remote attribute access
and every remote method call made by a property getter increments it, so an
unchanged state certifies that no remote call was made). -/
structure ObjState where
  remoteFunctions : List (String × RValue)
  nextW : Nat
  remoteGets : Nat
deriving DecidableEq

/-- The "local" search of `__getattr__` (RemoteProcessWrapper.py lines
224-239): scan the MRO class dictionaries, applying the descriptor protocol
with `obj=None`; if nothing is found there, consult the instance
dictionary. The source only tracks `attr is None`, so an absent name and a
name bound to `None` are both reported as Python `None`. -/
def localSearch (ctx : ObjCtx) (name : String) : RValue :=
  match List.lookup name ctx.localDefs with
  | some d => d.descGetClass
  | none => (List.lookup name ctx.instDict).getD .vnone

/-- `attr._setProxyOptions(**options)` (line 266): configure the dispatch
mode carried by the proxied callable. -/
def setProxyOptions : RValue → DispatchMode → RValue
  | .proxy i t ok c _, m => .proxy i t ok c m
  | .wrapped cls inner, m => .wrapped cls (setProxyOptions inner m)
  | v, _ => v

/-- Lines 251-272 of `__getattr__`: the treatment of a found attribute. A
`None` attribute raises the local `AttributeError` naming the wrapper class
and the attribute; otherwise the attribute is autowrapped, adder-named and
getter-named callables are wrapped in fresh closures, a callable with a
declared dispatch option is configured, cached in `_remote_functions` and
returned, any other callable is wrapped by `wrap_getters`, and plain values
are returned as they are. -/
def finishGetattr (ctx : ObjCtx) (st : ObjState) (name : String) (attr0 : RValue) :
    Except AttrError RValue × ObjState :=
  if attr0 = .vnone then
    (.error (.noAttribute ctx.className name), st)
  else
    let attr := RPGWrappedBase.autowrap ctx.registry attr0
    if pyStartsWith name ("add") && remoteCallable attr then
      (.ok (.adderWrapper st.nextW attr), { st with nextW := st.nextW + 1 })
    else if pyStartsWith name ("get") && remoteCallable attr then
      (.ok (.getterWrapper st.nextW attr), { st with nextW := st.nextW + 1 })
    else if remoteCallable attr then
      match List.lookup name ctx.options with
      | some mode =>
        let cached := RValue.getterWrapper st.nextW (setProxyOptions attr mode)
        (.ok cached,
         { st with nextW := st.nextW + 1,
                   remoteFunctions := (name, cached) :: st.remoteFunctions })
      | none => (.ok (.getterWrapper st.nextW attr), { st with nextW := st.nextW + 1 })
    else (.ok attr, st)

/-- `RPGWrappedBase.__getattr__` (RemoteProcessWrapper.py lines 213-272) with
the default `_location="both"`: intercept iPython special names; search
locally; when the local search yields `None`, return a cached entry of
`_remote_functions` if present, otherwise issue the transport `getAttr`
(which raises the attribute-not-found condition when the remote object
lacks the name); finally post-process the found attribute. -/
def dunderGetattr (ctx : ObjCtx) (st : ObjState) (name : String) :
    Except AttrError RValue × ObjState :=
  if isIPythonSpecial name then
    (.error .ipythonIgnored, st)
  else
    let attr := localSearch ctx name
    if attr = .vnone then
      match List.lookup name st.remoteFunctions with
      | some f => (.ok f, st)
      | none =>
        match List.lookup name ctx.remoteAttrs with
        | some v => finishGetattr ctx { st with remoteGets := st.remoteGets + 1 } name v
        | none =>
          (.error (.noAttribute ctx.remoteTypeName name),
           { st with remoteGets := st.remoteGets + 1 })
    else finishGetattr ctx st name attr

/-- Run a local property getter on the instance: a local-field getter reads
the reserved field without touching the transport; a delegating getter
(e.g. `win_title` running `self.windowTitle()`) issues its remote call —
one recorded transport operation — and returns whatever the remote object
currently answers. -/
def runGetter (ctx : ObjCtx) (st : ObjState) : GetterBody → Except AttrError RValue × ObjState
  | .localField v => (.ok v, st)
  | .remoteMethodCall m =>
    (.ok ((List.lookup m ctx.remoteCalls).getD .vnone),
     { st with remoteGets := st.remoteGets + 1 })

/-- A full Python attribute read on a wrapped object:
`object.__getattribute__` first resolves data descriptors (properties) on
the class, then the instance dictionary, then remaining class attributes
(methods and plain class data are non-data descriptors); only when all of
this fails is `__getattr__` invoked. Reading a property calls its getter on
the instance — the getter's body runs and performs whatever transport
traffic it contains. -/
def readAttr (ctx : ObjCtx) (st : ObjState) (name : String) :
    Except AttrError RValue × ObjState :=
  match List.lookup name ctx.localDefs with
  | some (.propdef _ body) => runGetter ctx st body
  | some (.method fid) =>
    match List.lookup name ctx.instDict with
    | some v => (.ok v, st)
    | none => (.ok (.func fid), st)
  | some (.dataval v) =>
    match List.lookup name ctx.instDict with
    | some v2 => (.ok v2, st)
    | none => (.ok v, st)
  | none =>
    match List.lookup name ctx.instDict with
    | some v => (.ok v, st)
    | none => dunderGetattr ctx st name

/-- Claim C5 counterexample: the locally defined property `win_title` of
`BasePlotWindow` (`return self.windowTitle()`, PlotWindow.py lines 19-21
and pyplot.py lines 275-277) issues a remote transport call when read —
the transport-operation counter increases — and the value read is whatever
the remote object currently answers: two states differing only in the
remote object's window title yield different results, so the returned
value is not independent of the remote object's state. -/
theorem C5_property_remote_call_counterexample :
    readAttr
      { className := ("BasePlotWindow"), remoteTypeName := ("GraphicsLayoutWidget"),
        registry := localRegistry,
        localDefs := [(("win_title"), .propdef 0 (.remoteMethodCall ("windowTitle")))],
        instDict := [], remoteAttrs := [],
        remoteCalls := [(("windowTitle"), .str ("Title A"))], options := [] }
      ⟨[], 0, 0⟩ ("win_title") =
      (.ok (.str ("Title A")), ⟨[], 0, 1⟩) ∧
    readAttr
      { className := ("BasePlotWindow"), remoteTypeName := ("GraphicsLayoutWidget"),
        registry := localRegistry,
        localDefs := [(("win_title"), .propdef 0 (.remoteMethodCall ("windowTitle")))],
        instDict := [], remoteAttrs := [],
        remoteCalls := [(("windowTitle"), .str ("Title B"))], options := [] }
      ⟨[], 0, 0⟩ ("win_title") =
      (.ok (.str ("Title B")), ⟨[], 0, 1⟩) ∧
    (RValue.str ("Title A") ≠ RValue.str ("Title B")) := by
  refine ⟨by decide, by decide, by decide⟩

/-- Claim C5 as amended: when `name` is defined on the local class hierarchy
as a method or a property, the attribute *resolution* always uses the local
definition and never delegates `name` itself to the remote object — the
result is the same for every remote attribute table. Reading a method
returns the local function with the state (and so the transport-operation
count) unchanged. Reading a property runs the local getter, and any
transport traffic is exactly the getter body's own: a getter that reads a
reserved local field issues no transport operation, while a delegating
getter such as `win_title` issues its own remote call and returns remote
state. -/
theorem C5_local_over_remote_amended :
    (∀ (ctx : ObjCtx) (st : ObjState) (name : String) (fid : Nat),
      List.lookup name ctx.localDefs = some (.method fid) →
      ∀ remoteAttrs, readAttr { ctx with remoteAttrs := remoteAttrs } st name =
        (.ok ((List.lookup name ctx.instDict).getD (.func fid)), st)) ∧
    (∀ (ctx : ObjCtx) (st : ObjState) (name : String) (pid : Nat) (body : GetterBody),
      List.lookup name ctx.localDefs = some (.propdef pid body) →
      ∀ remoteAttrs, readAttr { ctx with remoteAttrs := remoteAttrs } st name =
        runGetter ctx st body) ∧
    (∀ (ctx : ObjCtx) (st : ObjState) (name : String) (pid : Nat) (v : RValue),
      List.lookup name ctx.localDefs = some (.propdef pid (.localField v)) →
      ∀ remoteAttrs, readAttr { ctx with remoteAttrs := remoteAttrs } st name =
        (.ok v, st)) := by
  have hprop : ∀ (ctx : ObjCtx) (st : ObjState) (name : String) (pid : Nat)
      (body : GetterBody),
      List.lookup name ctx.localDefs = some (.propdef pid body) →
      ∀ remoteAttrs, readAttr { ctx with remoteAttrs := remoteAttrs } st name =
        runGetter ctx st body := by
    intro ctx st name pid body hlocal ra
    have hlocal2 : List.lookup name ({ ctx with remoteAttrs := ra }).localDefs =
        some (.propdef pid body) := hlocal
    cases body with
    | localField v => simp [readAttr, hlocal2, runGetter]
    | remoteMethodCall m => simp [readAttr, hlocal2, runGetter]
  refine ⟨?_, hprop, ?_⟩
  · intro ctx st name fid hlocal ra
    have hlocal2 : List.lookup name ({ ctx with remoteAttrs := ra }).localDefs =
        some (.method fid) := hlocal
    have hinst : List.lookup name ({ ctx with remoteAttrs := ra }).instDict =
        List.lookup name ctx.instDict := rfl
    cases h : List.lookup name ctx.instDict with
    | none => simp [readAttr, hlocal2, hinst, h]
    | some v => simp [readAttr, hlocal2, hinst, h]
  · intro ctx st name pid v hlocal ra
    exact hprop ctx st name pid (.localField v) hlocal ra

/-- Witness for the amended C5: the genuinely local getter `ColorMap.name`
(`return self._name`, pyplot.py lines 565-567) is read without any
transport operation even though the remote object exposes a different
`name` attribute; and a locally defined method is resolved to the local
function with the state unchanged despite a remote attribute of the same
name. -/
theorem C5_local_over_remote_amended_witness :
    readAttr
      { className := ("ColorMap"), remoteTypeName := ("ColorMap"),
        registry := localRegistry,
        localDefs := [(("name"), .propdef 0 (.localField (.str ("viridis"))))],
        instDict := [],
        remoteAttrs := [(("name"), .str ("REMOTE"))], remoteCalls := [],
        options := [] }
      ⟨[], 0, 0⟩ ("name") =
      (.ok (.str ("viridis")), ⟨[], 0, 0⟩) ∧
    readAttr
      { className := ("BasePlotItem"), remoteTypeName := ("PlotItem"),
        registry := localRegistry,
        localDefs := [(("update_axes"), .method 5)],
        instDict := [],
        remoteAttrs := [(("update_axes"), .str ("REMOTE"))], remoteCalls := [],
        options := [] }
      ⟨[], 0, 0⟩ ("update_axes") =
      (.ok (.func 5), ⟨[], 0, 0⟩) :=
  ⟨C5_local_over_remote_amended.2.2
    { className := ("ColorMap"), remoteTypeName := ("ColorMap"),
      registry := localRegistry,
      localDefs := [(("name"), .propdef 0 (.localField (.str ("viridis"))))],
      instDict := [], remoteAttrs := [], remoteCalls := [], options := [] }
    ⟨[], 0, 0⟩ ("name") 0 (.str ("viridis")) (by decide)
    [(("name"), .str ("REMOTE"))],
   C5_local_over_remote_amended.1
    { className := ("BasePlotItem"), remoteTypeName := ("PlotItem"),
      registry := localRegistry,
      localDefs := [(("update_axes"), .method 5)],
      instDict := [], remoteAttrs := [], remoteCalls := [], options := [] }
    ⟨[], 0, 0⟩ ("update_axes") 5 (by decide)
    [(("update_axes"), .str ("REMOTE"))]⟩

/-- Helper: when `name` has no declared dispatch option, no path of the
attribute post-processing writes to the `_remote_functions` cache. -/
theorem finishGetattr_cache_untouched (ctx : ObjCtx) (st : ObjState) (name : String)
    (v : RValue) (ho : List.lookup name ctx.options = none) :
    ((finishGetattr ctx st name v).2).remoteFunctions = st.remoteFunctions := by
  simp only [finishGetattr]
  split
  · rfl
  · split
    · rfl
    · split
      · rfl
      · split
        · split
          · next heq => rw [ho] at heq; cases heq
          · rfl
        · rfl

/-- Helper: when `name` has no declared dispatch option, `__getattr__` leaves
the `_remote_functions` cache unchanged on every path. -/
theorem dunderGetattr_cache_untouched (ctx : ObjCtx) (st : ObjState) (name : String)
    (ho : List.lookup name ctx.options = none) :
    ((dunderGetattr ctx st name).2).remoteFunctions = st.remoteFunctions := by
  simp only [dunderGetattr]
  split
  · rfl
  · split
    · split
      · rfl
      · split
        · exact finishGetattr_cache_untouched ctx _ name _ ho
        · rfl
    · exact finishGetattr_cache_untouched ctx st name _ ho

/-- Claim C6 counterexample: a method name that begins with `add` and is
declared in `_remote_function_options` is intercepted by the adder-wrapping
branch before the cache logic runs (RemoteProcessWrapper.py lines 259-260
precede lines 264-268): the first access stores nothing in
`_remote_functions`, and a second access creates a distinct closure, so the
two resolved callables are not identical. -/
theorem C6_add_option_counterexample :
    (dunderGetattr
      { className := ("Custom"), remoteTypeName := ("Custom"), registry := localRegistry,
        localDefs := [], instDict := [],
        remoteAttrs := [(("addFoo"), .proxy 11 ("instancemethod") false true .blocking)],
        remoteCalls := [], options := [(("addFoo"), .fireAndForget)] } ⟨[], 0, 0⟩ ("addFoo")) =
      (.ok (.adderWrapper 0 (.proxy 11 ("instancemethod") false true .blocking)),
       ⟨[], 1, 1⟩) ∧
    (dunderGetattr
      { className := ("Custom"), remoteTypeName := ("Custom"), registry := localRegistry,
        localDefs := [], instDict := [],
        remoteAttrs := [(("addFoo"), .proxy 11 ("instancemethod") false true .blocking)],
        remoteCalls := [], options := [(("addFoo"), .fireAndForget)] } ⟨[], 1, 1⟩ ("addFoo")) =
      (.ok (.adderWrapper 1 (.proxy 11 ("instancemethod") false true .blocking)),
       ⟨[], 2, 2⟩) ∧
    RValue.adderWrapper 0 (.proxy 11 ("instancemethod") false true .blocking) ≠
      RValue.adderWrapper 1 (.proxy 11 ("instancemethod") false true .blocking) := by
  refine ⟨by decide, by decide, by decide⟩

/-- Claim C6 as amended: for a declared method name that does not begin with
`add` or `get` (and is not an iPython special name), the first access
resolves the remote callable, configures its dispatch mode once and stores
the wrapped callable in the per-object cache; any access that finds the
name in the cache returns the identical stored callable with the state —
and hence the configured dispatch mode — unchanged; and names with no
declared option are never entered into the cache. -/
theorem C6_call_cache_amended :
    (∀ (ctx : ObjCtx) (st : ObjState) (name : String) (v : RValue) (mode : DispatchMode),
      isIPythonSpecial name = false →
      localSearch ctx name = .vnone →
      List.lookup name st.remoteFunctions = none →
      List.lookup name ctx.remoteAttrs = some v →
      v ≠ .vnone →
      pyStartsWith name ("add") = false →
      pyStartsWith name ("get") = false →
      remoteCallable (RPGWrappedBase.autowrap ctx.registry v) = true →
      List.lookup name ctx.options = some mode →
      dunderGetattr ctx st name =
        (.ok (.getterWrapper st.nextW
            (setProxyOptions (RPGWrappedBase.autowrap ctx.registry v) mode)),
         ⟨(name, .getterWrapper st.nextW
             (setProxyOptions (RPGWrappedBase.autowrap ctx.registry v) mode)) ::
           st.remoteFunctions,
          st.nextW + 1, st.remoteGets + 1⟩)) ∧
    (∀ (ctx : ObjCtx) (st : ObjState) (name : String) (f : RValue),
      isIPythonSpecial name = false →
      localSearch ctx name = .vnone →
      List.lookup name st.remoteFunctions = some f →
      dunderGetattr ctx st name = (.ok f, st)) ∧
    (∀ (ctx : ObjCtx) (st : ObjState) (name : String),
      List.lookup name ctx.options = none →
      ((dunderGetattr ctx st name).2).remoteFunctions = st.remoteFunctions) := by
  refine ⟨?_, ?_, ?_⟩
  · intro ctx st name v mode hip hls hc0 hr hv ha hg hcall ho
    simp [dunderGetattr, finishGetattr, hip, hls, hc0, hr, hv, ha, hg, hcall, ho]
  · intro ctx st name f hip hls hcache
    simp [dunderGetattr, hip, hls, hcache]
  · intro ctx st name ho
    exact dunderGetattr_cache_untouched ctx st name ho

/-- Witness for the amended C6: the `setLevels` method of a
`HistogramLUTItem` (declared `callSync='off'`) is resolved, configured to
fire-and-forget and cached on first access; the second access returns the
identical cached callable with the state unchanged; and resolving a name
with no declared option leaves the cache empty. -/
theorem C6_call_cache_amended_witness :
    (dunderGetattr
      { className := ("HistogramLUTItem"), remoteTypeName := ("HistogramLUTItem"),
        registry := localRegistry, localDefs := [], instDict := [],
        remoteAttrs := [(("setLevels"), .proxy 21 ("instancemethod") false true .blocking)],
        remoteCalls := [], options := [(("setLevels"), .fireAndForget)] } ⟨[], 0, 0⟩ ("setLevels")) =
      (.ok (.getterWrapper 0 (.proxy 21 ("instancemethod") false true .fireAndForget)),
       ⟨[(("setLevels"),
          .getterWrapper 0 (.proxy 21 ("instancemethod") false true .fireAndForget))],
        1, 1⟩) ∧
    (dunderGetattr
      { className := ("HistogramLUTItem"), remoteTypeName := ("HistogramLUTItem"),
        registry := localRegistry, localDefs := [], instDict := [],
        remoteAttrs := [(("setLevels"), .proxy 21 ("instancemethod") false true .blocking)],
        remoteCalls := [], options := [(("setLevels"), .fireAndForget)] }
      ⟨[(("setLevels"),
         .getterWrapper 0 (.proxy 21 ("instancemethod") false true .fireAndForget))],
       1, 1⟩ ("setLevels")) =
      (.ok (.getterWrapper 0 (.proxy 21 ("instancemethod") false true .fireAndForget)),
       ⟨[(("setLevels"),
          .getterWrapper 0 (.proxy 21 ("instancemethod") false true .fireAndForget))],
        1, 1⟩) ∧
    ((dunderGetattr
      { className := ("HistogramLUTItem"), remoteTypeName := ("HistogramLUTItem"),
        registry := localRegistry, localDefs := [], instDict := [],
        remoteAttrs := [(("paint"), .proxy 22 ("instancemethod") false true .blocking)],
        remoteCalls := [], options := [] } ⟨[], 0, 0⟩ ("paint")).2).remoteFunctions = [] :=
  ⟨C6_call_cache_amended.1
    { className := ("HistogramLUTItem"), remoteTypeName := ("HistogramLUTItem"),
      registry := localRegistry, localDefs := [], instDict := [],
      remoteAttrs := [(("setLevels"), .proxy 21 ("instancemethod") false true .blocking)],
      remoteCalls := [], options := [(("setLevels"), .fireAndForget)] } ⟨[], 0, 0⟩ ("setLevels")
    (.proxy 21 ("instancemethod") false true .blocking) .fireAndForget
    (by decide) (by decide) (by decide) (by decide) (by decide) (by decide) (by decide)
    (by decide) (by decide),
   C6_call_cache_amended.2.1
    { className := ("HistogramLUTItem"), remoteTypeName := ("HistogramLUTItem"),
      registry := localRegistry, localDefs := [], instDict := [],
      remoteAttrs := [(("setLevels"), .proxy 21 ("instancemethod") false true .blocking)],
      remoteCalls := [], options := [(("setLevels"), .fireAndForget)] }
    ⟨[(("setLevels"),
       .getterWrapper 0 (.proxy 21 ("instancemethod") false true .fireAndForget))],
     1, 1⟩ ("setLevels")
    (.getterWrapper 0 (.proxy 21 ("instancemethod") false true .fireAndForget))
    (by decide) (by decide) (by decide),
   C6_call_cache_amended.2.2
    { className := ("HistogramLUTItem"), remoteTypeName := ("HistogramLUTItem"),
      registry := localRegistry, localDefs := [], instDict := [],
      remoteAttrs := [(("paint"), .proxy 22 ("instancemethod") false true .blocking)],
      remoteCalls := [], options := [] } ⟨[], 0, 0⟩ ("paint") (by decide)⟩

/-- Claim C9 counterexample: a name matching the iPython special-method
pattern that exists neither locally nor remotely raises the fixed-message
`AttributeError("Ignoring iPython special methods")`
(RemoteProcessWrapper.py lines 215-218), which names neither the object's
type nor the attribute. -/
theorem C9_ipython_counterexample :
    readAttr
      { className := ("PlotWindow"), remoteTypeName := ("ExtendedPlotWindow"),
        registry := localRegistry, localDefs := [], instDict := [], remoteAttrs := [],
        remoteCalls := [], options := [] } ⟨[], 0, 0⟩ ("_repr_html_") =
      (.error .ipythonIgnored, ⟨[], 0, 0⟩) ∧
    AttrError.ipythonIgnored ≠ .noAttribute ("PlotWindow") ("_repr_html_") ∧
    AttrError.ipythonIgnored ≠ .noAttribute ("ExtendedPlotWindow") ("_repr_html_") := by
  refine ⟨by decide, by decide, by decide⟩

/-- Claim C9 as amended: for a name that does not match the iPython
special-method patterns and is found neither on the local class hierarchy,
nor among the local instance fields, nor on the remote object, the
attribute read raises an attribute-not-found error naming a type (the
remote object's runtime type, whose `getattr` failed) and the attribute —
it never returns `None` or another sentinel. Names matching the iPython
patterns instead raise the fixed-message `AttributeError` of lines
215-218. -/
theorem C9_missing_attribute_amended (ctx : ObjCtx) (st : ObjState) (name : String)
    (hip : isIPythonSpecial name = false)
    (hl : List.lookup name ctx.localDefs = none)
    (hi : List.lookup name ctx.instDict = none)
    (hcache : List.lookup name st.remoteFunctions = none)
    (hr : List.lookup name ctx.remoteAttrs = none) :
    readAttr ctx st name =
      (.error (.noAttribute ctx.remoteTypeName name),
       { st with remoteGets := st.remoteGets + 1 }) := by
  have hls : localSearch ctx name = .vnone := by simp [localSearch, hl, hi]
  simp [readAttr, hl, hi, dunderGetattr, hip, hls, hcache, hr]

/-- Witness for the amended C9: a misspelt attribute that exists nowhere
raises the attribute-not-found error naming the remote type and the
attribute. -/
theorem C9_missing_attribute_amended_witness :
    readAttr
      { className := ("PlotWindow"), remoteTypeName := ("ExtendedPlotWindow"),
        registry := localRegistry, localDefs := [], instDict := [], remoteAttrs := [],
        remoteCalls := [], options := [] } ⟨[], 0, 0⟩ ("win_titel") =
      (.error (.noAttribute ("ExtendedPlotWindow") ("win_titel")), ⟨[], 0, 1⟩) :=
  C9_missing_attribute_amended
    { className := ("PlotWindow"), remoteTypeName := ("ExtendedPlotWindow"),
      registry := localRegistry, localDefs := [], instDict := [], remoteAttrs := [],
      remoteCalls := [], options := [] } ⟨[], 0, 0⟩ ("win_titel")
    (by decide) (by decide) (by decide) (by decide) (by decide)

/-- Claim C10: when the local lookup finds nothing and the remote `getAttr`
returns the value `None`, `__getattr__` raises the `AttributeError` of
RemoteProcessWrapper.py lines 252-253 (naming the wrapper class and the
attribute) instead of returning `None` — so a remote attribute that exists
but holds `None` can never be read through the proxy and is
indistinguishable from an absent attribute. -/
theorem C10_none_valued_remote_attribute (ctx : ObjCtx) (st : ObjState) (name : String)
    (hip : isIPythonSpecial name = false)
    (hl : List.lookup name ctx.localDefs = none)
    (hi : List.lookup name ctx.instDict = none)
    (hcache : List.lookup name st.remoteFunctions = none)
    (hr : List.lookup name ctx.remoteAttrs = some .vnone) :
    readAttr ctx st name =
      (.error (.noAttribute ctx.className name),
       { st with remoteGets := st.remoteGets + 1 }) := by
  have hls : localSearch ctx name = .vnone := by simp [localSearch, hl, hi]
  simp [readAttr, hl, hi, dunderGetattr, hip, hls, hcache, hr, finishGetattr]

/-- Witness for C10: a remote attribute `mouseHovering` that exists remotely
with value `None` is reported as missing by an `AttributeError` naming the
wrapper class, not returned as `None`. -/
theorem C10_none_valued_remote_attribute_witness :
    readAttr
      { className := ("PlotDataItem"), remoteTypeName := ("PlotDataItem"),
        registry := localRegistry, localDefs := [], instDict := [],
        remoteAttrs := [(("mouseHovering"), .vnone)], remoteCalls := [], options := [] }
      ⟨[], 0, 0⟩ ("mouseHovering") =
      (.error (.noAttribute ("PlotDataItem") ("mouseHovering")), ⟨[], 0, 1⟩) :=
  C10_none_valued_remote_attribute
    { className := ("PlotDataItem"), remoteTypeName := ("PlotDataItem"),
      registry := localRegistry, localDefs := [], instDict := [],
      remoteAttrs := [(("mouseHovering"), .vnone)], remoteCalls := [], options := [] }
    ⟨[], 0, 0⟩ ("mouseHovering")
    (by decide) (by decide) (by decide) (by decide) (by decide)

end QCM
